import Mathlib

/-!
Shallow embedding of the Antigravity Usage Stats quota engine
(src/src/data: quotaGrouper.ts with its data models, quotaFetcher.ts,
antigravityClient.ts, localFetcher.ts, pollingManager.ts) together with
theorems checking the natural-language specification against it.

JavaScript numbers are modelled as rationals, timestamps (Date values)
as integer epoch milliseconds, and strings as Lean strings operating on
their character lists (all inputs of interest are ASCII).  I/O boundaries
(child-process output, HTTP responses) enter as explicit oracle
parameters holding the already-delivered data.
-/

set_option maxRecDepth 4000

namespace AGStats

/-! ## JavaScript string primitives used by the source -/

/-- Model of JavaScript `String.prototype.toLowerCase` for ASCII data. -/
def strLower (s : String) : String := String.mk (s.data.map Char.toLower)

/-- Does the needle occur as a contiguous segment of the haystack?  Model of
JavaScript `String.prototype.includes`. -/
def containsSeg (hay needle : List Char) : Bool :=
  match hay with
  | [] => needle.isEmpty
  | _ :: t => needle.isPrefixOf hay || containsSeg t needle

/-- Model of JavaScript `hay.includes(needle)`. -/
def strContains (hay needle : String) : Bool := containsSeg hay.data needle.data

/-- Model of JavaScript `String.prototype.trim` (strip whitespace on both ends). -/
def jsTrimL (l : List Char) : List Char :=
  ((l.dropWhile Char.isWhitespace).reverse.dropWhile Char.isWhitespace).reverse

/-- Model of JavaScript `String.prototype.trim` on strings. -/
def jsTrim (s : String) : String := String.mk (jsTrimL s.data)

/-- Model of `line.trim().split(/\s+/)` applied to a trimmed line: split on
whitespace runs, dropping the empty fragments the run produces. -/
def splitWs (s : String) : List String :=
  ((s.data.splitOnP Char.isWhitespace).filter (fun p => !p.isEmpty)).map String.mk

/-- Model of JavaScript `String.prototype.split` with a one-character
separator (keeps empty fragments, exactly like JS). -/
def splitChar (s : String) (sep : Char) : List String :=
  (s.data.splitOn sep).map String.mk

/-- Digits to an integer, for the captured `(\d+)` groups fed to `parseInt`. -/
def digitsToInt (ds : List Char) : Int :=
  ds.foldl (fun n c => n * 10 + ((c.toNat : Int) - 48)) 0

/-- Model of JavaScript `parseInt(s, 10)`: skip leading whitespace, optional
sign, then a decimal-digit prefix; `none` stands for `NaN`. -/
def jsParseInt (s : String) : Option Int :=
  let cs := s.data.dropWhile Char.isWhitespace
  let signAndRest : Bool × List Char :=
    match cs with
    | '-' :: r => (true, r)
    | '+' :: r => (false, r)
    | r => (false, r)
  let ds := signAndRest.2.takeWhile Char.isDigit
  if ds.isEmpty then none
  else some ((if signAndRest.1 then -1 else 1) * digitsToInt ds)

/-- Model of JavaScript `Math.round` on rationals (round half toward positive
infinity). -/
def jsRound (q : ℚ) : Int := ⌊q + 1 / 2⌋

/-! ## Domain model (src/src/data/quotaGrouper.ts, models section) -/

/-- Status of a quota, from the `QuotaStatus` string enumeration. -/
inductive QuotaStatus where
  | healthy
  | warning
  | critical
  | exhausted
  | unknown
  deriving DecidableEq, Repr

/-- Threshold configuration (`ThresholdConfig`). -/
structure ThresholdConfig where
  warning : ℚ
  critical : ℚ
  deriving DecidableEq, Repr

/-- One model's quota snapshot (`QuotaInfo`).  Dates are epoch milliseconds. -/
structure QuotaInfo where
  modelId : String
  modelName : String
  poolId : String
  remaining : ℚ
  capacity : ℚ
  percentRemaining : ℚ
  status : QuotaStatus
  resetTime : Option Int
  resetInSeconds : Option Int
  lastUpdated : Int
  deriving DecidableEq, Repr

/-- A group of models sharing a quota pool (`QuotaGroup`). -/
structure QuotaGroup where
  poolId : String
  groupName : String
  customName : Option String
  models : List QuotaInfo
  totalRemaining : ℚ
  totalCapacity : ℚ
  percentRemaining : ℚ
  status : QuotaStatus
  resetTime : Option Int
  deriving DecidableEq, Repr

/-- Source tag of a fetch result. -/
inductive Source where
  | srcLocal
  | remote
  | cache
  deriving DecidableEq, Repr

/-- Envelope returned by every fetch operation (`FetchResult`). -/
structure FetchResult where
  success : Bool
  quotas : List QuotaInfo
  error : Option String
  source : Source
  timestamp : Int
  deriving DecidableEq, Repr

namespace QuotaHelpers

/-- Embeds `QuotaHelpers.calculateStatus` (quotaGrouper.ts lines 293-304). -/
def calculateStatus (percentRemaining : ℚ) (thresholds : ThresholdConfig) : QuotaStatus :=
  if percentRemaining ≤ 0 then .exhausted
  else if percentRemaining ≤ thresholds.critical then .critical
  else if percentRemaining ≤ thresholds.warning then .warning
  else .healthy

/-- Embeds `QuotaHelpers.createQuotaInfo` (quotaGrouper.ts lines 366-392);
`now` stands for `Date.now()` / `new Date()` at construction time. -/
def createQuotaInfo (modelId modelName poolId : String) (remaining capacity : ℚ)
    (resetTime : Option Int) (thresholds : ThresholdConfig) (now : Int) : QuotaInfo :=
  let percentRemaining := if capacity > 0 then remaining / capacity * 100 else 0
  let resetInSeconds :=
    resetTime.map (fun rt => max 0 (Int.fdiv (rt - now) 1000))
  { modelId := modelId
    modelName := modelName
    poolId := poolId
    remaining := remaining
    capacity := capacity
    percentRemaining := percentRemaining
    status := calculateStatus percentRemaining thresholds
    resetTime := resetTime
    resetInSeconds := resetInSeconds
    lastUpdated := now }

end QuotaHelpers

namespace AntigravityClient

/-- Embeds `AntigravityClient.inferPoolId` (antigravityClient.ts lines 817-841). -/
def inferPoolId (label : String) : String :=
  let lowerLabel := strLower label
  if strContains lowerLabel "claude" then "claude-pool"
  else if strContains lowerLabel "gemini" && strContains lowerLabel "pro" then "gemini-pro-pool"
  else if strContains lowerLabel "gemini" && strContains lowerLabel "flash" then "gemini-flash-pool"
  else if strContains lowerLabel "gpt" then "claude-pool"
  else "default-pool"

end AntigravityClient

/-- Raw quota sub-structure of a model entry in the peer response
(`AntigravityModel.quotaInfo`); the reset time arrives as an already-parsed
epoch-millisecond value (string-to-Date parsing is the JS runtime's). -/
structure AGQuotaInfo where
  remainingFraction : Option ℚ
  resetTime : Option Int
  deriving DecidableEq, Repr

/-- Raw model entry of the peer response (`AntigravityModel`). -/
structure AGModel where
  label : Option String
  modelOrAliasModel : Option String
  quotaInfo : Option AGQuotaInfo
  deriving DecidableEq, Repr

/-- Peer response (`AntigravityUserStatus`); the three nested optional layers
of `userStatus?.cascadeModelConfigData?.clientModelConfigs` collapse into one
optional list. -/
structure AGUserStatus where
  clientModelConfigs : Option (List AGModel)
  deriving DecidableEq, Repr

/-- Model of one whitespace-run replacement step of
`label.toLowerCase().replace(regex matching whitespace runs, single dash)`:
`prevWs` records whether the previous character belonged to a run. -/
def replaceWsRuns (prevWs : Bool) : List Char → List Char
  | [] => []
  | c :: cs =>
    if c.isWhitespace then
      (if prevWs then [] else ['-']) ++ replaceWsRuns true cs
    else c :: replaceWsRuns false cs

/-- Model of the fallback model id `label.toLowerCase().replace(ws-runs, '-')`
in `parseResponse`. -/
def slugify (label : String) : String :=
  String.mk (replaceWsRuns false (strLower label).data)

namespace AntigravityClient

/-- Embeds `AntigravityClient.parseResponse` (antigravityClient.ts lines
779-812): keep entries carrying a quota sub-structure, default the fraction
to 1, fix capacity at 100 and set remaining to the rounded scaled fraction. -/
def parseResponse (data : AGUserStatus) (thresholds : ThresholdConfig) (now : Int) :
    List QuotaInfo :=
  let models := data.clientModelConfigs.getD []
  (models.filter (fun m => m.quotaInfo.isSome)).map (fun m =>
    let label := m.label.getD "Unknown Model"
    let modelId := m.modelOrAliasModel.getD (slugify label)
    let remainingFraction := (m.quotaInfo.bind (fun q => q.remainingFraction)).getD 1
    let resetTime := m.quotaInfo.bind (fun q => q.resetTime)
    let poolId := inferPoolId label
    let capacity : ℚ := 100
    let remaining : ℚ := (jsRound (remainingFraction * capacity) : ℚ)
    QuotaHelpers.createQuotaInfo modelId label poolId remaining capacity resetTime
      thresholds now)

/-- Result of command-line parsing during discovery
(`Omit<ProcessInfo, 'connectPort'>`); `pid` is `none` when `parseInt`
produced `NaN`. -/
structure BasicInfo where
  pid : Option Int
  extensionPort : Int
  csrfToken : String
  deriving DecidableEq, Repr

/-- Confirmed connection (`ProcessInfo` with its probed `connectPort`). -/
structure ProcessInfo where
  pid : Option Int
  extensionPort : Int
  csrfToken : String
  connectPort : Int
  deriving DecidableEq, Repr

/-- Mutable state of the `AntigravityClient` singleton: the held connection. -/
structure ClientState where
  processInfo : Option ProcessInfo
  deriving DecidableEq, Repr

/-- Embeds `AntigravityClient.findWorkingPort` (antigravityClient.ts lines
666-674): sequential scan, first port whose probe succeeds wins.  The probe
outcome per port enters as the oracle `probe`. -/
def findWorkingPort (ports : List Int) (probe : Int → Bool) : Option Int :=
  ports.find? probe

/-- Embeds `AntigravityClient.connect` (antigravityClient.ts lines 120-160)
with discovery oracles: `found` is the `findProcess()` outcome and `ports`
the `getListeningPorts` outcome.  On failure the held state is untouched;
on success `processInfo` is replaced. -/
def connect (st : ClientState) (found : Option BasicInfo) (ports : List Int)
    (probe : Int → Bool) : ClientState × Bool :=
  match found with
  | none => (st, false)
  | some basicInfo =>
    if ports.isEmpty then (st, false)
    else
      match findWorkingPort ports probe with
      | none => (st, false)
      | some workingPort =>
        ({ processInfo := some
            { pid := basicInfo.pid
              extensionPort := basicInfo.extensionPort
              csrfToken := basicInfo.csrfToken
              connectPort := workingPort } }, true)

/-- The failure envelope `fetchQuota` returns when discovery fails. -/
def notConnectedResult (now : Int) : FetchResult :=
  { success := false, quotas := [], error := some "Not connected to Antigravity",
    source := .srcLocal, timestamp := now }

/-- The request phase of `fetchQuota` (antigravityClient.ts lines 180-213):
on success the parsed quotas are returned; on any request failure the held
connection is cleared (`this.processInfo = null`) and a failure envelope
returned.  The final component reports whether this call invoked `connect`. -/
def doFetchRequest (st : ClientState) (invokedConnect : Bool)
    (requestOutcome : Except String AGUserStatus) (thresholds : ThresholdConfig)
    (now : Int) : ClientState × FetchResult × Bool :=
  match requestOutcome with
  | .ok data =>
    (st,
     { success := true, quotas := parseResponse data thresholds now, error := none,
       source := .srcLocal, timestamp := now }, invokedConnect)
  | .error msg =>
    ({ processInfo := none },
     { success := false, quotas := [], error := some msg, source := .srcLocal,
       timestamp := now }, invokedConnect)

/-- Embeds `AntigravityClient.fetchQuota` (antigravityClient.ts lines
165-214): connect first when no connection is held, then issue the
authenticated request; a failing request clears the held connection. -/
def fetchQuota (st : ClientState) (found : Option BasicInfo) (ports : List Int)
    (probe : Int → Bool) (requestOutcome : Except String AGUserStatus)
    (thresholds : ThresholdConfig) (now : Int) : ClientState × FetchResult × Bool :=
  match st.processInfo with
  | some _ => doFetchRequest st false requestOutcome thresholds now
  | none =>
    let connectResult := connect st found ports probe
    if connectResult.2 then doFetchRequest connectResult.1 true requestOutcome thresholds now
    else (connectResult.1, notConnectedResult now, true)

/-! ### Command-line scanning (the regular expressions of discovery) -/

/-- Case-sensitive literal-prefix match returning the rest of the input. -/
def litMatchCS : List Char → List Char → Option (List Char)
  | [], rest => some rest
  | _ :: _, [] => none
  | l :: ls, c :: cs => if l = c then litMatchCS ls cs else none

/-- Case-insensitive literal-prefix match returning the rest of the input. -/
def litMatchCI : List Char → List Char → Option (List Char)
  | [], rest => some rest
  | _ :: _, [] => none
  | l :: ls, c :: cs => if l.toLower = c.toLower then litMatchCI ls cs else none

/-- Leftmost-match scan: try the position matcher at every suffix, leftmost
success wins — the regex search order. -/
def scanToken (f : List Char → Option α) : List Char → Option α
  | [] => f []
  | c :: cs =>
    match f (c :: cs) with
    | some r => some r
    | none => scanToken f cs

/-- Boolean leftmost scan for test-only patterns. -/
def scanTest (f : List Char → Bool) : List Char → Bool
  | [] => f []
  | c :: cs => f (c :: cs) || scanTest f cs

/-- Position matcher for the flag-value patterns: the flag literal, then one
or more characters of the separator class (equals sign or whitespace), then
a non-empty capture of `cap`-class characters.  Separator and capture
classes are disjoint in both uses, so greedy matching is exact. -/
def matchFlagValueAt (ci : Bool) (lit : List Char) (cap : Char → Bool)
    (s : List Char) : Option (List Char) :=
  match (if ci then litMatchCI lit s else litMatchCS lit s) with
  | none => none
  | some rest =>
    let isSep := fun (c : Char) => c = '=' || c.isWhitespace
    let seps := rest.takeWhile isSep
    let rest2 := rest.dropWhile isSep
    if seps.isEmpty then none
    else
      let captured := rest2.takeWhile cap
      if captured.isEmpty then none else some captured

/-- First flag-value capture in the command line, as a string. -/
def findFlagValue (ci : Bool) (lit : String) (cap : Char → Bool) (s : String) :
    Option String :=
  (scanToken (matchFlagValueAt ci lit.data cap) s.data).map String.mk

/-- Capture class of the case-insensitive CSRF-token pattern: hex digits and
dashes, either case. -/
def isHexDashCI (c : Char) : Bool :=
  ("abcdef0123456789-".data).contains c.toLower

/-- Embeds `AntigravityClient.parseCommandLine` (antigravityClient.ts lines
452-468): extract the extension-server port (defaulting to 0 when absent)
and require a CSRF token. -/
def parseCommandLine (pid : Option Int) (cmdLine : String) : Option BasicInfo :=
  let portValue := findFlagValue false "--extension_server_port" Char.isDigit cmdLine
  let tokenValue := findFlagValue true "--csrf_token" isHexDashCI cmdLine
  match tokenValue with
  | some token =>
    some { pid := pid
           extensionPort := (portValue.map (fun v => digitsToInt v.data)).getD 0
           csrfToken := token }
  | none => none

/-- Word character of the regex word-boundary assertion. -/
def isWordChar (c : Char) : Bool := c.isAlphanum || c = '_'

/-- Position matcher for the ownership-marker pattern: the literal
app-data-dir flag (case-insensitive), one or more whitespace characters,
the literal product name, then a word boundary. -/
def appDataDirAt (s : List Char) : Bool :=
  match litMatchCI "--app_data_dir".data s with
  | none => false
  | some rest =>
    let ws := rest.takeWhile Char.isWhitespace
    let rest2 := rest.dropWhile Char.isWhitespace
    if ws.isEmpty then false
    else
      match litMatchCI "antigravity".data rest2 with
      | none => false
      | some [] => true
      | some (c :: _) => !(isWordChar c)

/-- Embeds `AntigravityClient.isAntigravityProcess` (antigravityClient.ts
lines 246-263): the ownership marker is either the app-data-dir flag naming
the product or a path segment naming it. -/
def isAntigravityProcess (commandLine : String) : Bool :=
  let lowerCmd := strLower commandLine
  if scanTest appDataDirAt commandLine.data then true
  else if strContains lowerCmd "\\antigravity\\" || strContains lowerCmd "/antigravity/" then
    true
  else false

/-- Per-line step of `findProcessMacOS` (antigravityClient.ts lines 391-419):
lines mentioning the CSRF-token flag are split on whitespace; with at least
11 columns, the pid is column 1 and the command line is columns 10 onward.
No ownership check appears on this path. -/
def macLineAttempt (line : String) : Option BasicInfo :=
  if strContains line "--csrf_token" then
    let parts := splitWs (jsTrim line)
    if parts.length ≥ 11 then
      parseCommandLine (jsParseInt ((parts.get? 1).getD ""))
        (String.intercalate " " (parts.drop 10))
    else none
  else none

/-- Embeds `AntigravityClient.findProcessMacOS` over the delivered `ps aux`
output: first line that parses wins. -/
def findProcessMacOS (stdout : String) : Option BasicInfo :=
  (splitChar stdout '\n').findSome? macLineAttempt

/-- Per-line step of `findProcessLinux` (antigravityClient.ts lines 424-447):
lines mentioning the extension-server-port flag; pid is the first column and
the command line is the remainder of the raw line after it, trimmed.  No
ownership check appears on this path either. -/
def linuxLineAttempt (line : String) : Option BasicInfo :=
  if strContains line "--extension_server_port" then
    match splitWs (jsTrim line) with
    | [] => none
    | p0 :: _ =>
      parseCommandLine (jsParseInt p0) (jsTrim (String.mk (line.data.drop p0.length)))
  else none

/-- Embeds `AntigravityClient.findProcessLinux` over the delivered `pgrep -af`
output. -/
def findProcessLinux (stdout : String) : Option BasicInfo :=
  (splitChar stdout '\n').findSome? linuxLineAttempt

/-- One process row of the Windows discovery output (PowerShell or WMIC),
after the JSON/text parsing done by the runtime. -/
structure WinProcEntry where
  processId : Option Int
  commandLine : Option String
  deriving DecidableEq, Repr

/-- Embeds the filtering loop of `findProcessWindowsPowerShell`
(antigravityClient.ts lines 317-332): keep only rows whose command line
passes `isAntigravityProcess`, then return the first row that parses. -/
def findProcessWindowsFromList (procs : List WinProcEntry) : Option BasicInfo :=
  let antigravityProcs := procs.filter
    (fun p => (p.commandLine.map isAntigravityProcess).getD false)
  antigravityProcs.findSome? (fun p =>
    match p.commandLine, p.processId with
    | some cmdLine, some pid => parseCommandLine (some pid) cmdLine
    | _, _ => none)

end AntigravityClient

namespace LocalAntigravityFetcher

/-- Embeds `LocalAntigravityFetcher.inferPoolId` (localFetcher.ts lines 279-299),
the second, divergent pool-inference routine of the repository. -/
def inferPoolId (modelName : String) : String :=
  let lowerName := strLower modelName
  if strContains lowerName "claude" then "claude-pool"
  else if strContains lowerName "gemini" && strContains lowerName "pro" then "gemini-pro-pool"
  else if strContains lowerName "gemini" && strContains lowerName "flash" then "gemini-flash-pool"
  else if strContains lowerName "gemini" then "gemini-pool"
  else if strContains lowerName "gpt" then "gpt-pool"
  else "default-pool"

end LocalAntigravityFetcher

namespace QuotaGrouper

/-- Severity rank used by the sort comparator and the worst-status reduce
(quotaGrouper.ts lines 70-76 and 126-132). -/
def statusOrder : QuotaStatus → Nat
  | .exhausted => 0
  | .critical => 1
  | .warning => 2
  | .healthy => 3
  | .unknown => 4

/-- Embeds the `models.reduce(..., QuotaStatus.HEALTHY)` aggregation of
`createGroup` (quotaGrouper.ts lines 125-134): left fold seeded at Healthy. -/
def worstStatus (models : List QuotaInfo) : QuotaStatus :=
  models.foldl
    (fun worst m => if statusOrder m.status < statusOrder worst then m.status else worst)
    .healthy

/-- Model of the case-insensitive "-pool" suffix strip inside
`generateGroupName`. -/
def stripPoolSuffix (s : String) : String :=
  let n := s.length
  if n ≥ 5 && strLower (s.drop (n - 5)) == "-pool" then s.take (n - 5) else s

/-- Model of `word.charAt(0).toUpperCase() + word.slice(1)`. -/
def capitalizeWord (w : String) : String :=
  match w.data with
  | [] => ""
  | c :: cs => String.mk (c.toUpper :: cs)

/-- Embeds `QuotaGrouper.generateGroupName` (quotaGrouper.ts lines 152-159). -/
def generateGroupName (poolId : String) : String :=
  String.intercalate " "
    ((((stripPoolSuffix poolId).data.splitOn '-').map String.mk).map capitalizeWord)

/-- Embeds `QuotaGrouper.createGroup` (quotaGrouper.ts lines 102-147).  The
custom-name map is carried as an association list; `thresholds` is accepted
and unused exactly as in the source. -/
def createGroup (poolId : String) (models : List QuotaInfo) (thresholds : ThresholdConfig)
    (customGroupNames : List (String × String)) : QuotaGroup :=
  let totalRemaining := models.foldl (fun sum m => sum + m.remaining) 0
  let totalCapacity := models.foldl (fun sum m => sum + m.capacity) 0
  let percentRemaining := if totalCapacity > 0 then totalRemaining / totalCapacity * 100 else 0
  let validResetTimes := (models.map (fun m => m.resetTime)).reduceOption
  let resetTime : Option Int :=
    match validResetTimes with
    | [] => none
    | t :: ts => some (ts.foldl min t)
  { poolId := poolId
    groupName := generateGroupName poolId
    customName := customGroupNames.lookup poolId
    models := models
    totalRemaining := totalRemaining
    totalCapacity := totalCapacity
    percentRemaining := percentRemaining
    status := worstStatus models
    resetTime := resetTime }

/-- Pool keys in first-occurrence order, the iteration order of the
insertion-ordered `Map` built by `groupByPool`. -/
def poolKeys (quotas : List QuotaInfo) : List String :=
  quotas.foldl (fun ks q => if ks.contains q.poolId then ks else ks ++ [q.poolId]) []

/-- Comparator of the group sort (quotaGrouper.ts lines 69-82) as a total
preorder: severity rank first, then the derived display name
(`localeCompare` modelled as code-point comparison; the generated names here
are ASCII). -/
def groupLE (a b : QuotaGroup) : Bool :=
  if statusOrder a.status = statusOrder b.status then
    compare a.groupName b.groupName ≠ Ordering.gt
  else
    statusOrder a.status < statusOrder b.status

/-- Embeds `QuotaGrouper.groupByPool` (quotaGrouper.ts lines 48-86): partition
by pool id in insertion order, build groups, sort by severity then name. -/
def groupByPool (quotas : List QuotaInfo) (thresholds : ThresholdConfig)
    (customGroupNames : List (String × String)) : List QuotaGroup :=
  let groups := (poolKeys quotas).map
    (fun poolId =>
      createGroup poolId (quotas.filter (fun q => q.poolId == poolId)) thresholds customGroupNames)
  List.insertionSort (fun a b => groupLE a b = true) groups

/-- Embeds `QuotaGrouper.flattenGroups` (quotaGrouper.ts lines 91-97). -/
def flattenGroups (groups : List QuotaGroup) : List QuotaInfo :=
  groups.foldl (fun acc g => acc ++ g.models) []

end QuotaGrouper

namespace QuotaFetcher

/-- Fetcher configuration (`FetcherConfig`, quotaFetcher.ts lines 10-17). -/
structure FetcherConfig where
  remoteUrl : Option String
  timeout : Int
  thresholds : ThresholdConfig
  deriving Repr

/-- Mutable state of the `QuotaFetcher` singleton that `fetch` reads and
writes: the last successful result (`lastFetchResult`). -/
structure FetcherState where
  lastFetchResult : Option FetchResult
  deriving DecidableEq, Repr

/-- Embeds `QuotaFetcher.getMockData` (quotaFetcher.ts lines 222-333): the
hard-coded ten-record dataset, reset five hours from `now`. -/
def getMockData (thresholds : ThresholdConfig) (now : Int) : FetchResult :=
  let resetTime : Option Int := some (now + 5 * 60 * 60 * 1000)
  let mk := fun (modelId modelName poolId : String) (remaining capacity : ℚ) =>
    QuotaHelpers.createQuotaInfo modelId modelName poolId remaining capacity
      resetTime thresholds now
  { success := true
    quotas :=
      [ mk "claude-3.5-sonnet" "Claude 3.5 Sonnet" "claude-pool" 5 50
      , mk "claude-sonnet-4.5-thinking" "Claude Sonnet 4.5 (Thinking)" "claude-pool" 35 50
      , mk "claude-opus-4.5-thinking" "Claude Opus 4.5 (Thinking)" "claude-pool" 49 50
      , mk "gemini-3-pro-high" "Gemini 3 Pro (High)" "gemini-pro-pool" 100 100
      , mk "gemini-3-pro-low" "Gemini 3 Pro (Low)" "gemini-pro-pool" 100 100
      , mk "gemini-2.0-pro" "Gemini 2.0 Pro" "gemini-pro-pool" 85 100
      , mk "gemini-3-flash" "Gemini 3 Flash" "gemini-flash-pool" 167 500
      , mk "gemini-2.0-flash" "Gemini 2.0 Flash" "gemini-flash-pool" 470 500
      , mk "gemini-1.5-flash" "Gemini 1.5 Flash" "gemini-flash-pool" 400 500
      , mk "gpt-o55-1208" "GPT-O55-1208 (Media.ml)" "gpt-pool" 60 100 ]
    error := none
    source := .srcLocal
    timestamp := now }

/-- Embeds `QuotaFetcher.fetch` (quotaFetcher.ts lines 66-114).  The two
network layers enter as oracles: `localOutcome` is what `fetchLocal()`
produced (a thrown error or a result) and `remoteOutcome` what
`fetchRemote()` produced when invoked.  Control flow of the source: the
inner try runs `fetchLocal`; on a throw it runs `fetchRemote` when a remote
URL is configured and otherwise returns `getMockData()`; a throw escaping
the inner catch (a failing `fetchRemote`) lands in the outer catch, which
returns the cached result re-tagged `cache` with the error attached if one
exists and the failure envelope otherwise.  Returns the result together
with the updated state. -/
def fetch (st : FetcherState) (config : FetcherConfig)
    (localOutcome remoteOutcome : Except String FetchResult) (now : Int) :
    FetchResult × FetcherState :=
  match localOutcome with
  | .ok r => (r, { lastFetchResult := some r })
  | .error _ =>
    match config.remoteUrl with
    | some _ =>
      match remoteOutcome with
      | .ok r => (r, { lastFetchResult := some r })
      | .error msg =>
        match st.lastFetchResult with
        | some cached => ({ cached with source := .cache, error := some msg }, st)
        | none =>
          ({ success := false, quotas := [], error := some msg, source := .cache,
             timestamp := now }, st)
    | none =>
      let r := getMockData config.thresholds now
      (r, { lastFetchResult := some r })

end QuotaFetcher

namespace PollingManager

/-- Embeds the clamp of `PollingManager.updateIntervalFromConfig`
(pollingManager.ts lines 145-153): `Math.max(10, Math.min(3600, interval))`. -/
def updateIntervalFromConfig (interval : Int) : Int :=
  max 10 (min 3600 interval)

/-- Timer-facing state of the `PollingManager` singleton. -/
structure PMState where
  timerRunning : Bool
  intervalSeconds : Int
  isPaused : Bool
  deriving DecidableEq, Repr

/-- Embeds the configuration read of `PollingManager.start` (pollingManager.ts
lines 45-63): a no-op while running, otherwise the clamped configured value
becomes the effective interval the repeating timer is armed with. -/
def start (st : PMState) (configuredInterval : Int) : PMState :=
  if st.timerRunning then st
  else { st with intervalSeconds := updateIntervalFromConfig configuredInterval,
                 timerRunning := true }

end PollingManager

/-! ## Spec-side reference definitions (used to compare code with spec) -/

/-- Pool classification written from the spec's wording (§4.2 Pool
inference): case-insensitive substring match on the display label, in the
spec's precedence order — claude, then gemini and pro, then gemini and
flash, then gpt to the shared claude pool, else the default pool. -/
def specPoolClassification (label : String) : String :=
  let lowered := strLower label
  if strContains lowered "claude" then "claude-pool"
  else if strContains lowered "gemini" && strContains lowered "pro" then "gemini-pro-pool"
  else if strContains lowered "gemini" && strContains lowered "flash" then "gemini-flash-pool"
  else if strContains lowered "gpt" then "claude-pool"
  else "default-pool"

/-- Worst status written from the spec's wording (§3 QuotaGroup): the single
worst status among the members, lowest severity rank wins; only meaningful
for non-empty member lists. -/
def specWorstStatus (models : List QuotaInfo) : QuotaStatus :=
  match models with
  | [] => .unknown
  | m :: rest =>
    rest.foldl
      (fun worst x =>
        if QuotaGrouper.statusOrder x.status < QuotaGrouper.statusOrder worst then x.status
        else worst)
      m.status

/-! ## Concrete fixtures for witnesses and counterexamples -/

/-- A successfully fetched record, as `createQuotaInfo` would build it. -/
def sampleRecord : QuotaInfo :=
  QuotaHelpers.createQuotaInfo "claude-3.5-sonnet" "Claude 3.5 Sonnet" "claude-pool"
    50 100 none ⟨30, 10⟩ 0

/-- A prior successful fetch result sitting in the orchestrator cache. -/
def sampleCachedResult : FetchResult :=
  { success := true, quotas := [sampleRecord], error := none, source := .srcLocal,
    timestamp := 0 }

/-- A record whose status is Unknown.  The record constructors of the source
never produce this status, but the `QuotaStatus` type admits it and the
aggregation claim quantifies over member records. -/
def unknownRecord : QuotaInfo :=
  { modelId := "u", modelName := "U", poolId := "p", remaining := 0, capacity := 0,
    percentRemaining := 0, status := .unknown, resetTime := none,
    resetInSeconds := none, lastUpdated := 0 }

/-- A member with status Critical (fields written out literally, matching
what `createQuotaInfo "m1" "M1" "p" 5 100` produces under the default
thresholds). -/
def criticalRecord : QuotaInfo :=
  { modelId := "m1", modelName := "M1", poolId := "p", remaining := 5, capacity := 100,
    percentRemaining := 5, status := .critical, resetTime := none,
    resetInSeconds := none, lastUpdated := 0 }

/-- A member with status Healthy (fields written out literally, matching
what `createQuotaInfo "m2" "M2" "p" 90 100` produces under the default
thresholds). -/
def healthyRecord : QuotaInfo :=
  { modelId := "m2", modelName := "M2", poolId := "p", remaining := 90, capacity := 100,
    percentRemaining := 90, status := .healthy, resetTime := none,
    resetInSeconds := none, lastUpdated := 0 }

/-- A command line of the sibling product sharing the same binary: it parses
(CSRF token and port present) but carries no Antigravity ownership marker. -/
def codeiumCommandLine : String :=
  "/Users/dev/.codeium/bin/language_server_macos_arm --api_server_url " ++
  "https://server.codeium.com --csrf_token 8f2a1b3c-4d5e-6f70-8190-a1b2c3d4e5f6 " ++
  "--extension_server_port 42100"

/-- A `ps aux` output line for that process (eleven-plus columns, command
starting at column ten). -/
def codeiumPsStdout : String :=
  "dev 1234 0.0 0.5 411000000 82000 ?? S 9:15AM 0:01.23 " ++ codeiumCommandLine

/-- Peer response carrying one model whose remaining fraction is 0.37. -/
def data037 : AGUserStatus :=
  ⟨some [{ label := some "Claude Opus 4.5 (Thinking)"
           modelOrAliasModel := some "claude-opus"
           quotaInfo := some { remainingFraction := some (37 / 100), resetTime := none } }]⟩

/-- The record `parseResponse` builds from the 0.37-fraction entry of
`data037`. -/
def r037 : QuotaInfo :=
  QuotaHelpers.createQuotaInfo "claude-opus" "Claude Opus 4.5 (Thinking)"
    (AntigravityClient.inferPoolId "Claude Opus 4.5 (Thinking)")
    ((jsRound ((37 / 100 : ℚ) * 100) : ℤ) : ℚ) 100 none ⟨30, 10⟩ 0

/-! ## Claim theorems -/

/-- C10: when the local path throws and no remote URL is configured, `fetch`
returns the hard-coded mock dataset of ten records with success and source
local, replacing the cache with it — for every prior cache state, so the
branch runs before the cache path is ever consulted. -/
theorem fetch_local_failure_without_remote_returns_mock
    (cache : Option FetchResult) (timeout : Int) (thresholds : ThresholdConfig)
    (localError : String) (remoteOutcome : Except String FetchResult) (now : Int) :
    QuotaFetcher.fetch ⟨cache⟩ ⟨none, timeout, thresholds⟩ (.error localError)
        remoteOutcome now =
      (QuotaFetcher.getMockData thresholds now,
       ⟨some (QuotaFetcher.getMockData thresholds now)⟩) ∧
    (QuotaFetcher.getMockData thresholds now).success = true ∧
    (QuotaFetcher.getMockData thresholds now).source = .srcLocal ∧
    (QuotaFetcher.getMockData thresholds now).quotas.length = 10 :=
  ⟨rfl, rfl, rfl, rfl⟩

/-- C1 counterexample: with a failing local path, no remote URL and an empty
cache, `fetch` does not return the failure envelope the claim states — it
returns the mock dataset with success true, source local and ten records. -/
theorem total_exhaustion_returns_mock_not_failure :
    (QuotaFetcher.fetch ⟨none⟩ ⟨none, 10000, ⟨30, 10⟩⟩
        (.error "Not connected to Antigravity") (.error "unused") 0).1.success = true ∧
    (QuotaFetcher.fetch ⟨none⟩ ⟨none, 10000, ⟨30, 10⟩⟩
        (.error "Not connected to Antigravity") (.error "unused") 0).1.source = .srcLocal ∧
    (QuotaFetcher.fetch ⟨none⟩ ⟨none, 10000, ⟨30, 10⟩⟩
        (.error "Not connected to Antigravity") (.error "unused") 0).1.quotas.length = 10 :=
  ⟨rfl, rfl, rfl⟩

/-- C1 (amended): the failure envelope — success false, empty records, the
error, source cache, current timestamp — is produced exactly when a remote
endpoint is configured, the local path fails, the remote fetch fails too,
and no prior successful result is cached. -/
theorem fetch_exhaustion_envelope_needs_failing_remote
    (url : String) (timeout : Int) (thresholds : ThresholdConfig)
    (localError remoteError : String) (now : Int) :
    QuotaFetcher.fetch ⟨none⟩ ⟨some url, timeout, thresholds⟩ (.error localError)
        (.error remoteError) now =
      ({ success := false, quotas := [], error := some remoteError, source := .cache,
         timestamp := now }, ⟨none⟩) :=
  rfl

/-- C2 counterexample: a failing cycle after an earlier successful fetch (a
configured remote whose fetch fails) returns the cached snapshot re-tagged
source cache with the error attached — but with the success flag still
true, spread from the cached result, refuting the claimed success false. -/
theorem failed_cycle_with_cache_keeps_success_true :
    (QuotaFetcher.fetch ⟨some sampleCachedResult⟩
        ⟨some "https://example.invalid", 10000, ⟨30, 10⟩⟩
        (.error "local failed") (.error "remote failed") 1000).1.success = true ∧
    (QuotaFetcher.fetch ⟨some sampleCachedResult⟩
        ⟨some "https://example.invalid", 10000, ⟨30, 10⟩⟩
        (.error "local failed") (.error "remote failed") 1000).1.source = .cache ∧
    (QuotaFetcher.fetch ⟨some sampleCachedResult⟩
        ⟨some "https://example.invalid", 10000, ⟨30, 10⟩⟩
        (.error "local failed") (.error "remote failed") 1000).1.error
      = some "remote failed" :=
  ⟨rfl, rfl, rfl⟩

/-- C2 (amended): every fetch cycle that fails after an earlier successful
fetch (local path failing, remote configured and failing) yields the cached
snapshot's records re-tagged source cache with the error string attached,
while the success flag is inherited unchanged from the cached result
(hence true for a successfully cached snapshot), and the cache itself is
left untouched. -/
theorem failed_cycle_returns_cache_with_inherited_flag
    (cached : FetchResult) (url : String) (timeout : Int)
    (thresholds : ThresholdConfig) (localError remoteError : String) (now : Int) :
    QuotaFetcher.fetch ⟨some cached⟩ ⟨some url, timeout, thresholds⟩
        (.error localError) (.error remoteError) now =
      ({ cached with source := .cache, error := some remoteError }, ⟨some cached⟩) ∧
    ({ cached with source := .cache, error := some remoteError } : FetchResult).quotas
      = cached.quotas ∧
    ({ cached with source := .cache, error := some remoteError } : FetchResult).success
      = cached.success :=
  ⟨rfl, rfl, rfl⟩

/-- C4 (amended): the protocol client's pool inference
(`AntigravityClient.inferPoolId`) classifies by case-insensitive substring
match in exactly the spec's precedence order (claude; gemini and pro;
gemini and flash; gpt to the shared claude pool; default otherwise), and
the five scenario labels map as stated.  The local fetcher's variant is
settled separately by the counterexample. -/
theorem inferPoolId_matches_spec_precedence :
    (∀ label : String, AntigravityClient.inferPoolId label = specPoolClassification label) ∧
    AntigravityClient.inferPoolId "Claude Opus 4.5 (Thinking)" = "claude-pool" ∧
    AntigravityClient.inferPoolId "Gemini 3 Pro (High)" = "gemini-pro-pool" ∧
    AntigravityClient.inferPoolId "Gemini 3 Flash" = "gemini-flash-pool" ∧
    AntigravityClient.inferPoolId "GPT OSS 120b" =
      AntigravityClient.inferPoolId "Claude Opus 4.5 (Thinking)" ∧
    AntigravityClient.inferPoolId "Some Other Model" = "default-pool" :=
  ⟨fun _ => rfl, by decide, by decide, by decide, by decide, by decide⟩

/-- C4 counterexample: the repository's second pool-inference routine
(`LocalAntigravityFetcher.inferPoolId`, cited by the claim) sends the label
"GPT OSS 120b" to "gpt-pool", not to the pool of "Claude Opus 4.5
(Thinking)", refuting the claim for that routine. -/
theorem localFetcher_inferPoolId_gpt_differs :
    LocalAntigravityFetcher.inferPoolId "GPT OSS 120b" = "gpt-pool" ∧
    LocalAntigravityFetcher.inferPoolId "Claude Opus 4.5 (Thinking)" = "claude-pool" ∧
    LocalAntigravityFetcher.inferPoolId "GPT OSS 120b" ≠
      LocalAntigravityFetcher.inferPoolId "Claude Opus 4.5 (Thinking)" := by
  refine ⟨by decide, by decide, ?_⟩
  decide

/-- C5: status classification is total with inclusive boundaries — at most
zero percent remaining is Exhausted; above zero and at most the critical
threshold is Critical (equality at the critical threshold included); above
critical and at most the warning threshold is Warning; above both is
Healthy. -/
theorem calculateStatus_boundaries (p : ℚ) (t : ThresholdConfig) :
    (p ≤ 0 → QuotaHelpers.calculateStatus p t = .exhausted) ∧
    (0 < p → p ≤ t.critical → QuotaHelpers.calculateStatus p t = .critical) ∧
    (0 < p → t.critical < p → p ≤ t.warning → QuotaHelpers.calculateStatus p t = .warning) ∧
    (0 < p → t.critical < p → t.warning < p → QuotaHelpers.calculateStatus p t = .healthy) ∧
    (0 < t.critical → QuotaHelpers.calculateStatus t.critical t = .critical) := by
  unfold QuotaHelpers.calculateStatus
  refine ⟨?_, ?_, ?_, ?_, ?_⟩ <;> intros <;> split_ifs <;> first | rfl | linarith

/-- C5 witness: the boundary behavior at the default thresholds of the
source (warning 30, critical 10), including equality at the critical
threshold yielding Critical. -/
theorem calculateStatus_boundaries_witness :
    QuotaHelpers.calculateStatus 0 ⟨30, 10⟩ = .exhausted ∧
    QuotaHelpers.calculateStatus 10 ⟨30, 10⟩ = .critical ∧
    QuotaHelpers.calculateStatus 30 ⟨30, 10⟩ = .warning ∧
    QuotaHelpers.calculateStatus 50 ⟨30, 10⟩ = .healthy ∧
    QuotaHelpers.calculateStatus (ThresholdConfig.mk 30 10).critical ⟨30, 10⟩ = .critical :=
  ⟨(calculateStatus_boundaries 0 ⟨30, 10⟩).1 (by norm_num),
   (calculateStatus_boundaries 10 ⟨30, 10⟩).2.1 (by norm_num) (by norm_num),
   (calculateStatus_boundaries 30 ⟨30, 10⟩).2.2.1 (by norm_num) (by norm_num) (by norm_num),
   (calculateStatus_boundaries 50 ⟨30, 10⟩).2.2.2.1 (by norm_num) (by norm_num) (by norm_num),
   (calculateStatus_boundaries 0 ⟨30, 10⟩).2.2.2.2 (by norm_num)⟩

/-- C8: the effective polling interval is the configured value clamped to
the closed range from 10 to 3600 seconds; configuring 5 yields 10 and
configuring 10000 yields 3600, and a freshly armed timer uses exactly the
clamped value. -/
theorem refreshInterval_clamped (n startInterval : Int) (paused : Bool) :
    PollingManager.updateIntervalFromConfig n =
      (if n < 10 then 10 else if n ≤ 3600 then n else 3600) ∧
    10 ≤ PollingManager.updateIntervalFromConfig n ∧
    PollingManager.updateIntervalFromConfig n ≤ 3600 ∧
    (PollingManager.start ⟨false, startInterval, paused⟩ n).intervalSeconds =
      PollingManager.updateIntervalFromConfig n ∧
    PollingManager.updateIntervalFromConfig 5 = 10 ∧
    PollingManager.updateIntervalFromConfig 10000 = 3600 := by
  refine ⟨?_, ?_, ?_, rfl, by decide, by decide⟩ <;>
    simp only [PollingManager.updateIntervalFromConfig, Int.max_def, Int.min_def] <;>
    split_ifs <;> omega

/-- Severity ranks determine statuses uniquely. -/
theorem statusOrder_injective (a b : QuotaStatus)
    (h : QuotaGrouper.statusOrder a = QuotaGrouper.statusOrder b) : a = b := by
  cases a <;> cases b <;> first | rfl | exact absurd h (by decide)

/-- A status other than Unknown ranks at most Healthy. -/
theorem statusOrder_le_of_ne_unknown (s : QuotaStatus) (h : s ≠ .unknown) :
    QuotaGrouper.statusOrder s ≤ 3 := by
  cases s <;> first | decide | exact absurd rfl h

/-- The rank of the worst-status fold is the running minimum of the ranks. -/
theorem statusOrder_foldl (l : List QuotaInfo) (init : QuotaStatus) :
    QuotaGrouper.statusOrder
      (l.foldl
        (fun worst m =>
          if QuotaGrouper.statusOrder m.status < QuotaGrouper.statusOrder worst then m.status
          else worst)
        init)
      = l.foldl (fun n m => min n (QuotaGrouper.statusOrder m.status))
          (QuotaGrouper.statusOrder init) := by
  induction l generalizing init with
  | nil => rfl
  | cons m l ih =>
    simp only [List.foldl_cons]
    rw [ih]
    congr 1
    split_ifs with h <;> omega

/-- Folding a minimum over a list distributes over a minimum in the seed. -/
theorem foldl_min_min (L : List Nat) (a b : Nat) :
    L.foldl min (min a b) = min a (L.foldl min b) := by
  induction L generalizing b with
  | nil => rfl
  | cons c L ih =>
    simp only [List.foldl_cons]
    rw [Nat.min_assoc, ih]

/-- A minimum fold never exceeds its seed. -/
theorem foldl_min_le_seed (L : List Nat) (a : Nat) : L.foldl min a ≤ a := by
  induction L generalizing a with
  | nil => exact Nat.le_refl a
  | cons c L ih =>
    simp only [List.foldl_cons]
    exact Nat.le_trans (ih (min a c)) (Nat.min_le_left a c)

/-- A minimum fold never exceeds a list element. -/
theorem foldl_min_le_mem (L : List Nat) (a x : Nat) (hx : x ∈ L) :
    L.foldl min a ≤ x := by
  induction L generalizing a with
  | nil => cases hx
  | cons c L ih =>
    simp only [List.foldl_cons]
    rcases List.mem_cons.1 hx with rfl | hx'
    · exact Nat.le_trans (foldl_min_le_seed L (min a x)) (Nat.min_le_right a x)
    · exact ih (min a c) hx'

/-- Rank form of the worst-status folds, via the generic minimum fold. -/
theorem statusOrder_foldl_as_ranks (l : List QuotaInfo) (init : QuotaStatus) :
    l.foldl (fun n m => min n (QuotaGrouper.statusOrder m.status))
        (QuotaGrouper.statusOrder init)
      = (l.map (fun m => QuotaGrouper.statusOrder m.status)).foldl min
          (QuotaGrouper.statusOrder init) := by
  rw [List.foldl_map]

/-- The code's Healthy-seeded worst-status fold agrees with the spec's
member-only worst status whenever some member is not Unknown. -/
theorem worstStatus_eq_specWorstStatus (models : List QuotaInfo)
    (h : ∃ m ∈ models, m.status ≠ .unknown) :
    QuotaGrouper.worstStatus models = specWorstStatus models := by
  obtain ⟨m0, hm0, hne⟩ := h
  cases models with
  | nil => cases hm0
  | cons m rest =>
    apply statusOrder_injective
    unfold QuotaGrouper.worstStatus specWorstStatus
    rw [statusOrder_foldl, statusOrder_foldl]
    rw [statusOrder_foldl_as_ranks, statusOrder_foldl_as_ranks]
    simp only [List.map_cons, List.foldl_cons]
    have hrank3 : QuotaGrouper.statusOrder QuotaStatus.healthy = 3 := rfl
    rw [hrank3]
    set R := rest.map (fun m => QuotaGrouper.statusOrder m.status) with hR
    have hassoc : R.foldl min (min 3 (QuotaGrouper.statusOrder m.status))
        = min 3 (R.foldl min (QuotaGrouper.statusOrder m.status)) :=
      foldl_min_min R 3 (QuotaGrouper.statusOrder m.status)
    rw [hassoc]
    have hspec_le : R.foldl min (QuotaGrouper.statusOrder m.status) ≤ 3 := by
      rcases List.mem_cons.1 hm0 with rfl | hmem
      · exact Nat.le_trans (foldl_min_le_seed R _) (statusOrder_le_of_ne_unknown _ hne)
      · exact Nat.le_trans
          (foldl_min_le_mem R _ (QuotaGrouper.statusOrder m0.status)
            (by rw [hR]; exact List.mem_map_of_mem _ hmem))
          (statusOrder_le_of_ne_unknown _ hne)
    omega

/-- C6 (amended): every group produced by `groupByPool` carries the
Healthy-seeded worst status of its members, and this equals the single
worst member status under the severity rank whenever at least one member's
status is not Unknown; an all-Unknown group is the one exception. -/
theorem groupByPool_status_is_worst_member_status
    (quotas : List QuotaInfo) (thresholds : ThresholdConfig)
    (customGroupNames : List (String × String)) (g : QuotaGroup)
    (hg : g ∈ QuotaGrouper.groupByPool quotas thresholds customGroupNames) :
    g.status = QuotaGrouper.worstStatus g.models ∧
    ((∃ m ∈ g.models, m.status ≠ .unknown) → g.status = specWorstStatus g.models) := by
  have hg' : g ∈ (QuotaGrouper.poolKeys quotas).map
      (fun poolId =>
        QuotaGrouper.createGroup poolId (quotas.filter (fun q => q.poolId == poolId))
          thresholds customGroupNames) :=
    (List.Perm.mem_iff (List.perm_insertionSort _ _)).1 hg
  obtain ⟨key, _, rfl⟩ := List.mem_map.1 hg'
  refine ⟨rfl, fun hmix => ?_⟩
  exact worstStatus_eq_specWorstStatus _ hmix

/-- C6 witness: a pool with one Critical and one Healthy member has Critical
as its aggregate status, the worst member status. -/
theorem groupByPool_status_witness :
    (QuotaGrouper.createGroup "p" [criticalRecord, healthyRecord] ⟨30, 10⟩ []).status
      = specWorstStatus
          (QuotaGrouper.createGroup "p" [criticalRecord, healthyRecord] ⟨30, 10⟩ []).models :=
  by
  have h := groupByPool_status_is_worst_member_status [criticalRecord, healthyRecord]
    ⟨30, 10⟩ [] (QuotaGrouper.createGroup "p" [criticalRecord, healthyRecord] ⟨30, 10⟩ [])
    (by
      simp [QuotaGrouper.groupByPool, QuotaGrouper.poolKeys, List.insertionSort,
        List.orderedInsert, criticalRecord, healthyRecord])
  exact h.2 ⟨criticalRecord, by simp [QuotaGrouper.createGroup], by simp [criticalRecord]⟩

/-- C6 counterexample: a group all of whose members have status Unknown gets
aggregate status Healthy, not Unknown — the reduce is seeded at Healthy and
Unknown ranks below it. -/
theorem all_unknown_group_aggregates_to_healthy :
    ((QuotaGrouper.groupByPool [unknownRecord] ⟨30, 10⟩ []).map (fun g => g.status))
      = [QuotaStatus.healthy] ∧
    specWorstStatus [unknownRecord] = .unknown ∧
    QuotaStatus.healthy ≠ QuotaStatus.unknown :=
  ⟨by decide, rfl, by decide⟩

/-- C7: whenever a data-fetch request using the held connection fails, the
held connection is cleared before the call returns (state none, failure
envelope), and any subsequent `fetchQuota` call on that state invokes
`connect` (re-discovery) instead of reusing a stale connection. -/
theorem failed_request_invalidates_connection
    (st : AntigravityClient.ClientState) (info : AntigravityClient.ProcessInfo)
    (hheld : st.processInfo = some info) (found : Option AntigravityClient.BasicInfo)
    (ports : List Int) (probe : Int → Bool) (errMsg : String)
    (thresholds : ThresholdConfig) (now : Int) :
    (AntigravityClient.fetchQuota st found ports probe (.error errMsg)
        thresholds now).1.processInfo = none ∧
    (AntigravityClient.fetchQuota st found ports probe (.error errMsg)
        thresholds now).2.1.success = false ∧
    ∀ (found2 : Option AntigravityClient.BasicInfo) (ports2 : List Int)
      (probe2 : Int → Bool) (ro2 : Except String AGUserStatus)
      (t2 : ThresholdConfig) (n2 : Int),
      (AntigravityClient.fetchQuota
          (AntigravityClient.fetchQuota st found ports probe (.error errMsg)
            thresholds now).1
          found2 ports2 probe2 ro2 t2 n2).2.2 = true := by
  obtain ⟨pi⟩ := st
  change pi = some info at hheld
  subst hheld
  refine ⟨rfl, rfl, ?_⟩
  intro found2 ports2 probe2 ro2 t2 n2
  show (AntigravityClient.fetchQuota ⟨none⟩ found2 ports2 probe2 ro2 t2 n2).2.2 = true
  rcases hc : AntigravityClient.connect ⟨none⟩ found2 ports2 probe2 with ⟨st1, ok⟩
  cases ok <;> cases ro2 <;>
    simp [AntigravityClient.fetchQuota, hc, AntigravityClient.doFetchRequest]

/-- C7 witness: a held connection, a failing request, and the follow-up call
re-invoking discovery, all at concrete inputs. -/
theorem failed_request_invalidates_connection_witness :
    (AntigravityClient.fetchQuota ⟨some ⟨some 1, 0, "token", 42⟩⟩ none []
        (fun _ => false) (.error "request timeout") ⟨30, 10⟩ 0).1.processInfo = none ∧
    (AntigravityClient.fetchQuota ⟨some ⟨some 1, 0, "token", 42⟩⟩ none []
        (fun _ => false) (.error "request timeout") ⟨30, 10⟩ 0).2.1.success = false ∧
    (AntigravityClient.fetchQuota
        (AntigravityClient.fetchQuota ⟨some ⟨some 1, 0, "token", 42⟩⟩ none []
            (fun _ => false) (.error "request timeout") ⟨30, 10⟩ 0).1
        none [] (fun _ => false) (.error "still down") ⟨30, 10⟩ 1).2.2 = true := by
  have h := failed_request_invalidates_connection ⟨some ⟨some 1, 0, "token", 42⟩⟩
    ⟨some 1, 0, "token", 42⟩ rfl none [] (fun _ => false) "request timeout" ⟨30, 10⟩ 0
  exact ⟨h.1, h.2.1, h.2.2 none [] (fun _ => false) (.error "still down") ⟨30, 10⟩ 1⟩

/-- C9: every record mapped from a peer model entry carrying quota
information has capacity fixed at 100 and remaining equal to the rounded
scaled remaining fraction; concretely, a response entry with remaining
fraction 0.37 yields capacity 100, remaining 37 and percentRemaining 37. -/
theorem parseResponse_normalization
    (data : AGUserStatus) (thresholds : ThresholdConfig) (now : Int) :
    (∀ r ∈ AntigravityClient.parseResponse data thresholds now,
        r.capacity = 100 ∧
        ∃ m ∈ data.clientModelConfigs.getD [], m.quotaInfo.isSome ∧
          r.remaining =
            ((jsRound (((m.quotaInfo.bind (fun q => q.remainingFraction)).getD 1) * 100) : ℤ) : ℚ)) ∧
    ((AntigravityClient.parseResponse data037 ⟨30, 10⟩ 0).map
        (fun r => (r.capacity, r.remaining, r.percentRemaining)))
      = [((100 : ℚ), (37 : ℚ), (37 : ℚ))] := by
  constructor
  · intro r hr
    obtain ⟨m, hmf, rfl⟩ := List.mem_map.1 hr
    obtain ⟨hm, hq⟩ := List.mem_filter.1 hmf
    exact ⟨rfl, m, hm, hq, rfl⟩
  · show [((r037.capacity, r037.remaining, r037.percentRemaining))]
      = [((100 : ℚ), (37 : ℚ), (37 : ℚ))]
    have hrem : ((jsRound ((37 / 100 : ℚ) * 100) : ℤ) : ℚ) = 37 := by
      unfold jsRound
      norm_num [Int.floor_eq_iff]
    have hcap : r037.capacity = 100 := rfl
    have hrem' : r037.remaining = ((jsRound ((37 / 100 : ℚ) * 100) : ℤ) : ℚ) := rfl
    have hpct : r037.percentRemaining =
        (if (100 : ℚ) > 0 then ((jsRound ((37 / 100 : ℚ) * 100) : ℤ) : ℚ) / 100 * 100 else 0) :=
      rfl
    rw [hcap, hrem', hpct, hrem]
    norm_num

/-- C9 witness: the record built from the 0.37-fraction entry is a member of
the parse result and satisfies the normalization. -/
theorem parseResponse_normalization_witness :
    r037 ∈ AntigravityClient.parseResponse data037 ⟨30, 10⟩ 0 ∧
    r037.capacity = 100 ∧
    ∃ m ∈ data037.clientModelConfigs.getD [], m.quotaInfo.isSome ∧
      r037.remaining =
        ((jsRound (((m.quotaInfo.bind (fun q => q.remainingFraction)).getD 1) * 100) : ℤ) : ℚ) := by
  have hmem : r037 ∈ AntigravityClient.parseResponse data037 ⟨30, 10⟩ 0 :=
    show r037 ∈ [r037] from List.mem_singleton.mpr rfl
  exact ⟨hmem, (parseResponse_normalization data037 ⟨30, 10⟩ 0).1 r037 hmem⟩

/-- C3 (code evaluated at the failing input): a sibling-product command line
with no Antigravity ownership marker fails `isAntigravityProcess`, yet the
macOS discovery path accepts it (returning its pid, port and token), while
the Windows path — the only one that consults the marker — rejects it. -/
theorem macos_discovery_accepts_unmarked_process :
    AntigravityClient.isAntigravityProcess codeiumCommandLine = false ∧
    AntigravityClient.findProcessMacOS codeiumPsStdout =
      some ⟨some 1234, 42100, "8f2a1b3c-4d5e-6f70-8190-a1b2c3d4e5f6"⟩ ∧
    AntigravityClient.findProcessWindowsFromList
      [⟨some 1234, some codeiumCommandLine⟩] = none := by
  refine ⟨by decide, by decide, by decide⟩

end AGStats
